import Mathlib

/-!
Verification of osmo-gsm-tester (srsRAN object wrappers) against its
natural-language specification.

Shallow embedding of the Python sources under src/src/osmo_gsm_tester/:
  obj/enb_srs.py   (srsENB: start, run_task, prerun_tasks, postrun_tasks,
                    cleanup, scp_back_metrics)
  obj/ms_srs.py    (srsUE: connect, run_task, prerun_tasks, scp_back_metrics,
                    is_rrc_connected, num_prb2symbol_sz, srsUEMetrics.verify)
  obj/ms_amarisoft.py (num_prb2symbol_sz)
  srs_epc.py       (srsEPC.subscriber_add)

Conventions of the embedding:
  exceptions are modelled with Except / an Option String field for a
  propagating exception; side effects that the claims talk about
  (launching a process, sync-launching a helper task, attempting a remote
  scp pull, writing a log line) are recorded in an explicit event trace;
  numpy floating point numbers are modelled by the rationals
  (every computation the claims exercise is exact).
-/

/-- Observable side effects of the start / cleanup sequences:
launchSync records launch_sync of a helper task together with its exit
code, launchMain records launch() of the main binary, pull records an
attempted rem_host.scpfrom with its label, logged records a log line. -/
inductive Event where
  | launchSync : String → Int → Event
  | launchMain : Event
  | pull : String → Event
  | logged : String → Event
deriving DecidableEq, Repr

/-- Embedding of srsENB.run_task (enb_srs.py lines 176..207) and of the
textually identical srsUE.run_task (ms_srs.py lines 175..206).  The parsing
of args= and the creation of the run directory do not affect control flow
and are elided.  launch_sync of the helper process returns its exit code,
modelled by the exitCode oracle.  A non-zero exit code raises
log.Error (the return False right after the raise is unreachable);
otherwise the method returns True. -/
def run_task (exitCode : String → Int) (task : String) :
    List Event × Except String Bool :=
  ([Event.launchSync task (exitCode task)],
   if exitCode task ≠ 0
   then Except.error "Error executing the pre run scripts. Aborting"
   else Except.ok true)

/-- The for-loop shared by srsENB.prerun_tasks / srsENB.postrun_tasks
(enb_srs.py lines 215..219 and 227..231) and srsUE.prerun_tasks
(ms_srs.py lines 214..218): run each task in order; a False return value
stops the loop with False; an exception from run_task propagates. -/
def run_tasks (exitCode : String → Int) :
    List String → List Event × Except String Bool
  | [] => ([], Except.ok true)
  | task :: rest =>
    match run_task exitCode task with
    | (ev, Except.error e) => (ev, Except.error e)
    | (ev, Except.ok false) => (ev, Except.ok false)
    | (ev, Except.ok true) =>
      (ev ++ (run_tasks exitCode rest).1, (run_tasks exitCode rest).2)

/-- Embedding of srsENB.prerun_tasks (enb_srs.py lines 210..219) and
srsUE.prerun_tasks (ms_srs.py lines 209..218): a missing or empty
prerun_scripts entry (both falsy in Python) returns True at once. -/
def prerun_tasks (exitCode : String → Int)
    (prerun_tasklist : Option (List String)) :
    List Event × Except String Bool :=
  match prerun_tasklist with
  | none => ([], Except.ok true)
  | some [] => ([], Except.ok true)
  | some (t :: ts) => run_tasks exitCode (t :: ts)

/-- Embedding of srsENB.postrun_tasks (enb_srs.py lines 222..231):
same shape as prerun_tasks, over the postrun_scripts entry. -/
def postrun_tasks (exitCode : String → Int)
    (postrun_tasklist : Option (List String)) :
    List Event × Except String Bool :=
  match postrun_tasklist with
  | none => ([], Except.ok true)
  | some [] => ([], Except.ok true)
  | some (t :: ts) => run_tasks exitCode (t :: ts)

/-- Result of a start sequence: the event trace, the value of the
process attribute (none = still unset, never launched) and a
propagating exception, when one escaped the method. -/
structure StartOutcome where
  events : List Event
  process : Option String
  exc : Option String
deriving DecidableEq, Repr

/-- Embedding of srsENB.start (enb_srs.py lines 233..250).  configure()
precedes prerun_tasks and is elided (it does not launch anything).  When
prerun_tasks raises, the exception propagates with the process attribute
still unset; when it returns False, start logs and returns; otherwise
start_locally / start_remotely set the process attribute and launch() it. -/
def srsENB_start (exitCode : String → Int)
    (prerun_tasklist : Option (List String)) : StartOutcome :=
  match prerun_tasks exitCode prerun_tasklist with
  | (ev, Except.error e) => ⟨ev, none, some e⟩
  | (ev, Except.ok false) =>
      ⟨ev ++ [Event.logged "Pre run tasks failed. Aborting"], none, none⟩
  | (ev, Except.ok true) => ⟨ev ++ [Event.launchMain], some "srsenb", none⟩

/-- Embedding of srsUE.connect (ms_srs.py lines 220..236): identical
control flow to srsENB.start except that the False branch returns
without a log line. -/
def srsUE_connect (exitCode : String → Int)
    (prerun_tasklist : Option (List String)) : StartOutcome :=
  match prerun_tasks exitCode prerun_tasklist with
  | (ev, Except.error e) => ⟨ev, none, some e⟩
  | (ev, Except.ok false) => ⟨ev, none, none⟩
  | (ev, Except.ok true) => ⟨ev ++ [Event.launchMain], some "srsue", none⟩

lemma run_tasks_events_are_sync (exitCode : String → Int) :
    ∀ (l : List String) (ev : Event), ev ∈ (run_tasks exitCode l).1 →
      ∃ t c, ev = Event.launchSync t c := by
  intro l
  induction l with
  | nil => intro ev h; simp [run_tasks] at h
  | cons a ts ih =>
    intro ev h
    by_cases hc : exitCode a = 0
    · simp [run_tasks, run_task, hc] at h
      rcases h with h | h
      · exact ⟨a, 0, h⟩
      · exact ih ev h
    · simp [run_tasks, run_task, hc] at h
      exact ⟨a, exitCode a, h⟩

lemma run_tasks_ok_true_all_zero (exitCode : String → Int) :
    ∀ (l : List String), (run_tasks exitCode l).2 = Except.ok true →
      ∀ t ∈ l, exitCode t = 0 := by
  intro l
  induction l with
  | nil => simp
  | cons a ts ih =>
    intro h t ht
    by_cases hc : exitCode a = 0
    · simp [run_tasks, run_task, hc] at h
      rcases List.mem_cons.mp ht with rfl | ht
      · exact hc
      · exact ih h t ht
    · simp [run_tasks, run_task, hc] at h

lemma prerun_tasks_events_are_sync (exitCode : String → Int)
    (pl : Option (List String)) (ev : Event)
    (h : ev ∈ (prerun_tasks exitCode pl).1) :
    ∃ t c, ev = Event.launchSync t c := by
  match pl with
  | none => simp [prerun_tasks] at h
  | some [] => simp [prerun_tasks] at h
  | some (t :: ts) => exact run_tasks_events_are_sync exitCode (t :: ts) ev h

lemma prerun_tasks_ok_true_all_zero (exitCode : String → Int)
    (l : List String) (h : (prerun_tasks exitCode (some l)).2 = Except.ok true) :
    ∀ t ∈ l, exitCode t = 0 := by
  match l with
  | [] => simp
  | t :: ts => exact run_tasks_ok_true_all_zero exitCode (t :: ts) h

/-- Claim C1: if any task in the configured pre-run task list exits with a
non-zero code, then neither srsENB.start nor srsUE.connect ever launches
the main binary: no launchMain event occurs in the trace and the process
attribute remains unset. -/
theorem C1_prerun_failure_never_launches (exitCode : String → Int)
    (tasks : List String) (task : String)
    (hmem : task ∈ tasks) (hfail : exitCode task ≠ 0) :
    (Event.launchMain ∉ (srsENB_start exitCode (some tasks)).events ∧
       (srsENB_start exitCode (some tasks)).process = none) ∧
    (Event.launchMain ∉ (srsUE_connect exitCode (some tasks)).events ∧
       (srsUE_connect exitCode (some tasks)).process = none) := by
  have hnotok : (prerun_tasks exitCode (some tasks)).2 ≠ Except.ok true := by
    intro h
    exact hfail (prerun_tasks_ok_true_all_zero exitCode tasks h task hmem)
  have hsync := prerun_tasks_events_are_sync exitCode (some tasks)
  constructor
  · unfold srsENB_start
    rcases hpre : prerun_tasks exitCode (some tasks) with ⟨ev, r⟩
    match r with
    | Except.error e =>
      refine ⟨fun hin => ?_, rfl⟩
      obtain ⟨t, c, hev⟩ := hsync Event.launchMain (by rw [hpre]; exact hin)
      exact Event.noConfusion hev
    | Except.ok false =>
      refine ⟨fun hin => ?_, rfl⟩
      rcases List.mem_append.mp hin with hin | hin
      · obtain ⟨t, c, hev⟩ := hsync Event.launchMain (by rw [hpre]; exact hin)
        exact Event.noConfusion hev
      · simp at hin
    | Except.ok true =>
      exact absurd (by rw [hpre]) hnotok
  · unfold srsUE_connect
    rcases hpre : prerun_tasks exitCode (some tasks) with ⟨ev, r⟩
    match r with
    | Except.error e =>
      refine ⟨fun hin => ?_, rfl⟩
      obtain ⟨t, c, hev⟩ := hsync Event.launchMain (by rw [hpre]; exact hin)
      exact Event.noConfusion hev
    | Except.ok false =>
      refine ⟨fun hin => ?_, rfl⟩
      obtain ⟨t, c, hev⟩ := hsync Event.launchMain (by rw [hpre]; exact hin)
      exact Event.noConfusion hev
    | Except.ok true =>
      exact absurd (by rw [hpre]) hnotok

/-- Witness for C1 at a concrete input: one pre-run task that exits 1. -/
theorem C1_witness :
    (Event.launchMain ∉
        (srsENB_start (fun t => if t = "/tmp/pre.sh" then 1 else 0)
          (some ["/tmp/pre.sh"])).events ∧
      (srsENB_start (fun t => if t = "/tmp/pre.sh" then 1 else 0)
          (some ["/tmp/pre.sh"])).process = none) ∧
    (Event.launchMain ∉
        (srsUE_connect (fun t => if t = "/tmp/pre.sh" then 1 else 0)
          (some ["/tmp/pre.sh"])).events ∧
      (srsUE_connect (fun t => if t = "/tmp/pre.sh" then 1 else 0)
          (some ["/tmp/pre.sh"])).process = none) :=
  C1_prerun_failure_never_launches
    (fun t => if t = "/tmp/pre.sh" then 1 else 0)
    ["/tmp/pre.sh"] "/tmp/pre.sh" (by simp) (by decide)

/-- The mutable attributes of a srsENB / srsUE object that the cleanup
and metrics-copy paths read or write. -/
structure ProcState where
  processSet : Bool
  isLocal : Bool
  running : Bool
  have_metrics_file : Bool
  enable_pcap : Bool
  enable_tracing : Bool
  enable_malloc_interceptor : Bool
deriving DecidableEq, Repr

/-- Embedding of srsENB.scp_back_metrics (enb_srs.py lines 153..174) and
of the textually identical srsUE.scp_back_metrics (ms_srs.py lines
146..167).  scpFail tells, per scp label, whether rem_host.scpfrom raises.
When the copy has not happened yet: a running process is stopped first;
on a remote node the copy is attempted; a raising copy is re-raised after
an err log when raiseException is set (have_metrics_file then stays
False because the raise leaves the method), and only logged otherwise;
in every non-raising path have_metrics_file is set to True afterwards. -/
def scp_back_metrics (scpFail : String → Bool) (raiseException : Bool)
    (st : ProcState) : List Event × ProcState × Option String :=
  if st.have_metrics_file = false then
    let st1 := if st.running then { st with running := false } else st
    if st1.isLocal = false then
      if scpFail "scp-back-metrics" then
        if raiseException then
          ([Event.pull "scp-back-metrics",
            Event.logged "Failed copying back metrics file from remote host"],
           st1, some "scp-back-metrics raised")
        else
          ([Event.pull "scp-back-metrics", Event.logged "scp exception"],
           { st1 with have_metrics_file := true }, none)
      else
        ([Event.pull "scp-back-metrics"],
         { st1 with have_metrics_file := true }, none)
    else ([], { st1 with have_metrics_file := true }, none)
  else ([Event.logged "Metrics have already been copied back"], st, none)

/-- One rem_host.scpfrom wrapped in try/except that only logs
(the artifact pulls of cleanup, enb_srs.py lines 123..146): the pull is
always attempted, a failure is logged and never propagates. -/
def tryPull (scpFail : String → Bool) (label : String) : List Event :=
  if scpFail label then [Event.pull label, Event.logged label]
  else [Event.pull label]

/-- Embedding of srsENB.cleanup (enb_srs.py lines 106..151).  Returns the
event trace, the final state and a propagating exception.  Nothing happens
when the process was never set or the node is local.  Otherwise the
post-run tasks run first; an exception raised inside run_task propagates
out of cleanup at once (so no metrics / log / pcap / s1ap / tracing /
interceptor pull is attempted); a False result is only logged.  Then the
metrics copy runs with raiseException=False, followed by the log pull and
the conditional pcap, s1ap pcap, tracing and interceptor pulls, each in a
try/except that only logs. -/
def srsENB_cleanup (exitCode : String → Int) (scpFail : String → Bool)
    (postrun_tasklist : Option (List String)) (st : ProcState) :
    List Event × ProcState × Option String :=
  if st.processSet = false then ([], st, none)
  else if st.isLocal then ([], st, none)
  else
    match postrun_tasks exitCode postrun_tasklist with
    | (ev, Except.error e) => (ev, st, some e)
    | (ev, Except.ok ok) =>
      let ev2 := if ok then []
                 else [Event.logged "Could not execute the post run tasks"]
      match scp_back_metrics scpFail false st with
      | (ev3, st3, some e) => (ev ++ ev2 ++ ev3, st3, some e)
      | (ev3, st3, none) =>
        let pulls :=
          tryPull scpFail "scp-back-log"
          ++ (if st3.enable_pcap then
                tryPull scpFail "scp-back-pcap"
                ++ tryPull scpFail "scp-back-s1-pcap" else [])
          ++ (if st3.enable_tracing then
                tryPull scpFail "scp-back-tracing" else [])
          ++ (if st3.enable_malloc_interceptor then
                tryPull scpFail "scp-back-interceptor" else [])
        (ev ++ ev2 ++ ev3 ++ pulls, st3, none)

/-- Claim C3: scp_back_metrics with raiseException=False never propagates
an exception; with the default raiseException=True it re-raises a failing
remote copy after logging an error, leaving have_metrics_file unset; and
for every raiseException value the copy is attempted only when the metrics
have not already been copied back. -/
theorem C3_scp_back_metrics_exception_policy (scpFail : String → Bool)
    (st : ProcState) :
    (scp_back_metrics scpFail false st).2.2 = none ∧
    (st.have_metrics_file = false → st.isLocal = false →
      scpFail "scp-back-metrics" = true →
        (scp_back_metrics scpFail true st).2.2 = some "scp-back-metrics raised" ∧
        Event.logged "Failed copying back metrics file from remote host" ∈
          (scp_back_metrics scpFail true st).1 ∧
        (scp_back_metrics scpFail true st).2.1.have_metrics_file = false) ∧
    (st.have_metrics_file = true →
      ∀ b : Bool, Event.pull "scp-back-metrics" ∉ (scp_back_metrics scpFail b st).1) := by
  refine ⟨?_, ?_, ?_⟩
  · unfold scp_back_metrics
    by_cases h1 : st.have_metrics_file = false <;>
      by_cases h2 : st.running <;>
        by_cases h3 : st.isLocal <;>
          by_cases h4 : scpFail "scp-back-metrics" <;>
            simp [h1, h2, h3, h4]
  · intro h1 h3 h4
    unfold scp_back_metrics
    by_cases h2 : st.running <;> simp [h1, h2, h3, h4]
  · intro h1 b
    unfold scp_back_metrics
    simp [h1]

/-- Witness for C3 at a concrete state: remote node, metrics not yet
copied, failing scp. -/
theorem C3_witness :
    (scp_back_metrics (fun _ => true) false
        ⟨true, false, true, false, false, false, false⟩).2.2 = none ∧
    (scp_back_metrics (fun _ => true) true
        ⟨true, false, true, false, false, false, false⟩).2.2 =
      some "scp-back-metrics raised" ∧
    Event.pull "scp-back-metrics" ∉
      (scp_back_metrics (fun _ => true) true
        ⟨true, false, true, true, false, false, false⟩).1 := by
  refine ⟨(C3_scp_back_metrics_exception_policy (fun _ => true)
    ⟨true, false, true, false, false, false, false⟩).1, ?_, ?_⟩
  · exact ((C3_scp_back_metrics_exception_policy (fun _ => true)
      ⟨true, false, true, false, false, false, false⟩).2.1 rfl rfl rfl).1
  · exact (C3_scp_back_metrics_exception_policy (fun _ => true)
      ⟨true, false, true, true, false, false, false⟩).2.2 rfl true

/-- Claim C2 evaluation (the code contradicts the claim): a remote srsENB
with two post-run tasks where the first one exits 1.  run_task raises
log.Error (instead of returning False as the dead code after the raise and
the boolean handling in cleanup intend), the exception propagates out of
cleanup, the second post-run task is never launched, and not a single
artifact pull (metrics, log, pcap, s1ap pcap, tracing, interceptor) is
attempted. -/
theorem C2_postrun_failure_aborts_cleanup :
    srsENB_cleanup (fun t => if t = "/scripts/collect_a.sh" then 1 else 0)
        (fun _ => false)
        (some ["/scripts/collect_a.sh", "/scripts/collect_b.sh"])
        ⟨true, false, false, false, true, true, true⟩ =
      ([Event.launchSync "/scripts/collect_a.sh" 1],
       ⟨true, false, false, false, true, true, true⟩,
       some "Error executing the pre run scripts. Aborting") ∧
    (∀ label : String, Event.pull label ∉
      (srsENB_cleanup (fun t => if t = "/scripts/collect_a.sh" then 1 else 0)
        (fun _ => false)
        (some ["/scripts/collect_a.sh", "/scripts/collect_b.sh"])
        ⟨true, false, false, false, true, true, true⟩).1) ∧
    (∀ c : Int, Event.launchSync "/scripts/collect_b.sh" c ∉
      (srsENB_cleanup (fun t => if t = "/scripts/collect_a.sh" then 1 else 0)
        (fun _ => false)
        (some ["/scripts/collect_a.sh", "/scripts/collect_b.sh"])
        ⟨true, false, false, false, true, true, true⟩).1) := by
  have h : srsENB_cleanup (fun t => if t = "/scripts/collect_a.sh" then 1 else 0)
        (fun _ => false)
        (some ["/scripts/collect_a.sh", "/scripts/collect_b.sh"])
        ⟨true, false, false, false, true, true, true⟩ =
      ([Event.launchSync "/scripts/collect_a.sh" 1],
       ⟨true, false, false, false, true, true, true⟩,
       some "Error executing the pre run scripts. Aborting") := by
    decide
  refine ⟨h, ?_, ?_⟩
  · intro label
    rw [h]
    simp
  · intro c
    rw [h]
    simp

/-- Whether the pattern pat occurs in s at character position i
(the strings of this code are ASCII, so character positions coincide
with the positions Python reports). -/
def occursAt (s : String) (i : Nat) (pat : String) : Bool :=
  (s.drop i).take pat.length == pat

/-- Python str.find: position of the first occurrence, -1 when absent. -/
def pyFind (s pat : String) : Int :=
  match ((List.range (s.length + 1)).filter (fun i => occursAt s i pat)).head? with
  | some i => (i : Int)
  | none => -1

/-- Python str.rfind: position of the last occurrence, -1 when absent. -/
def pyRfind (s pat : String) : Int :=
  match ((List.range (s.length + 1)).filter (fun i => occursAt s i pat)).getLast? with
  | some i => (i : Int)
  | none => -1

/-- The arguments given to the result_msg format string
"\x7b:.2f\x7d\x7b\x7d \x7b\x7d \x7b:.2f\x7d\x7b\x7d" of
srsUEMetrics.verify (ms_srs.py lines 557 and 559): the (possibly
Mbit/s-scaled) computed result, the comparison symbol, the (possibly
scaled) expected value and the unit suffix.  Modelling the format
arguments instead of the rendered text avoids embedding the decimal
rendering of floats, which no claim depends on. -/
structure Msg where
  result : ℚ
  sym : String
  value : ℚ
  unit : String
deriving DecidableEq, Repr

/-- The exceptions srsUEMetrics.verify can raise: log.Error for an unknown
operation or criterion, ValueError for a missing metric column, a numpy
shape error for elementwise addition of different lengths, a numpy
error / nan for an aggregate of an empty array, and log.Error carrying the
result message when the threshold comparison fails. -/
inductive VerifyError where
  | invalidOp : String → VerifyError
  | missingMetric : String → VerifyError
  | shapeMismatch : VerifyError
  | emptyData : VerifyError
  | threshold : Msg → VerifyError
deriving DecidableEq, Repr

/-- numpy elementwise += of two one-dimensional arrays: requires equal
length (broadcasting is not exercised by any claim or caller). -/
def npAdd (a b : List ℚ) : Except VerifyError (List ℚ) :=
  if a.length = b.length then Except.ok (List.zipWith (· + ·) a b)
  else Except.error VerifyError.shapeMismatch

/-- Splitting of a character list at a separator (grouping helper for
pySplit). -/
def splitChars (sep : Char) : List Char → List (List Char)
  | [] => [[]]
  | c :: cs =>
    match splitChars sep cs, decide (c = sep) with
    | r, true => [] :: r
    | [], false => [[c]]
    | g :: gs, false => (c :: g) :: gs

/-- Python str.split(sep) for a one-character separator: the pieces of s
between occurrences of sep. -/
def pySplit (sep : Char) (s : String) : List String :=
  (splitChars sep s.data).map (fun l => String.mk l)

/-- Every step-th element of a list, starting at its head (helper for the
numpy slice). -/
def everyNth (step : Nat) : List ℚ → List ℚ
  | [] => []
  | x :: xs => x :: everyNth step (xs.drop (step - 1))
termination_by l => l.length
decreasing_by simp; omega

/-- The numpy slice l[start::step]. -/
def sliceStep (l : List ℚ) (start step : Nat) : List ℚ :=
  everyNth step (l.drop start)

/-- The column-selection loop of srsUEMetrics.verify (ms_srs.py lines
503..516): metric_str is split on "+", each named column is fetched
(ValueError when absent) and the columns are summed elementwise,
starting from an empty array that is replaced by the first column. -/
def selectDataLoop (raw : String → Option (List ℚ)) :
    List String → List ℚ → Except VerifyError (List ℚ)
  | [], acc => Except.ok acc
  | m :: ms, acc =>
    match raw m with
    | none => Except.error (VerifyError.missingMetric m)
    | some vec =>
      if acc.length = 0 then selectDataLoop raw ms vec
      else
        match npAdd acc vec with
        | Except.error e => Except.error e
        | Except.ok s => selectDataLoop raw ms s

def selectData (raw : String → Option (List ℚ)) (metric_str : String) :
    Except VerifyError (List ℚ) :=
  selectDataLoop raw (pySplit (Char.ofNat 43) metric_str) []

/-- The component-carrier folding of srsUEMetrics.verify (ms_srs.py lines
519..525): num_cc = numpy.amax(cc column) + 1 (amax of an empty array
raises), then the slice [0::num_cc] plus the slices [cc::num_cc] for
cc = 1..num_cc-1, summed elementwise. -/
def ccFold (tmp : List ℚ) (num_cc : Nat) :
    List Nat → List ℚ → Except VerifyError (List ℚ)
  | [], acc => Except.ok acc
  | cc :: rest, acc =>
    match npAdd acc (sliceStep tmp cc num_cc) with
    | Except.error e => Except.error e
    | Except.ok s => ccFold tmp num_cc rest s

def deinterleave (ccCol : List Nat) (tmp : List ℚ) :
    Except VerifyError (List ℚ) :=
  match ccCol with
  | [] => Except.error VerifyError.emptyData
  | c :: cs =>
    ccFold tmp (cs.foldl max c + 1) (List.range' 1 (cs.foldl max c + 1 - 1))
      (sliceStep tmp 0 (cs.foldl max c + 1))

/-- numpy.average of a one-dimensional array (nan on an empty array,
modelled as an error since no claim evaluates it). -/
def npAverage (l : List ℚ) : Except VerifyError ℚ :=
  match l with
  | [] => Except.error VerifyError.emptyData
  | _ => Except.ok (l.sum / (l.length : ℚ))

/-- numpy.amax (raises on an empty array). -/
def npAmax (l : List ℚ) : Except VerifyError ℚ :=
  match l with
  | [] => Except.error VerifyError.emptyData
  | x :: xs => Except.ok (xs.foldl max x)

/-- numpy.amin (raises on an empty array). -/
def npAmin (l : List ℚ) : Except VerifyError ℚ :=
  match l with
  | [] => Except.error VerifyError.emptyData
  | x :: xs => Except.ok (xs.foldl min x)

/-- numpy.convolve(a, numpy.ones(w)/w, mode=valid): when w ≤ len(a) the
entry at i is the average of a[i..i+w-1]; when len(a) < w numpy swaps the
arguments and every entry equals sum(a)/w; empty inputs raise. -/
def convolveValidAvg (a : List ℚ) (w : Nat) : Except VerifyError (List ℚ) :=
  match a, w with
  | [], _ => Except.error VerifyError.emptyData
  | _, 0 => Except.error VerifyError.emptyData
  | _, _ =>
    if w ≤ a.length then
      Except.ok ((List.range (a.length - w + 1)).map
        (fun i => ((a.drop i).take w).sum / (w : ℚ)))
    else
      Except.ok ((List.range (w - a.length + 1)).map
        (fun _ => a.sum / (w : ℚ)))

/-- The operation dispatch of srsUEMetrics.verify (ms_srs.py lines
527..538): avg, sum, max_rolling_avg (rolling average over the window,
then the maximum), min_rolling_avg (leading zeros trimmed first with
numpy.trim_zeros(sel_data, f), then the rolling average, then the
minimum). -/
def aggregate (operation : String) (window : Nat) (sel : List ℚ) :
    Except VerifyError ℚ :=
  if operation = "avg" then npAverage sel
  else if operation = "sum" then Except.ok sel.sum
  else if operation = "max_rolling_avg" then
    match convolveValidAvg sel window with
    | Except.error e => Except.error e
    | Except.ok conv => npAmax conv
  else if operation = "min_rolling_avg" then
    match convolveValidAvg (sel.dropWhile (fun x => decide (x = 0))) window with
    | Except.error e => Except.error e
    | Except.ok conv => npAmin conv
  else Except.error (VerifyError.invalidOp operation)

def VALID_OPERATIONS : List String :=
  ["avg", "sum", "max_rolling_avg", "min_rolling_avg"]

def VALID_CRITERION : List String := ["eq", "gt", "lt"]

/-- The CRITERION_TO_SYM dictionary of srsUEMetrics. -/
def CRITERION_TO_SYM (c : String) : String :=
  if c = "eq" then "==" else if c = "gt" then ">"
  else if c = "lt" then "<" else ""

/-- The CRYTERION_TO_SYM_OPPOSITE dictionary of srsUEMetrics (the name
keeps the spelling of the source). -/
def CRYTERION_TO_SYM_OPPOSITE (c : String) : String :=
  if c = "eq" then "!=" else if c = "gt" then "<="
  else if c = "lt" then ">=" else ""

/-- The comparison tail of srsUEMetrics.verify (ms_srs.py lines 542..561):
success is decided on the unscaled result; then, when metric_str contains
"brate" at a strictly positive position, result and value are divided by
1e6 and the unit " Mbit/s" is attached; on failure log.Error is raised
with the message built from the opposite comparison symbol, otherwise the
message with the criterion symbol is returned. -/
def checkResult (metric_str criterion : String) (result value : ℚ) :
    Except VerifyError Msg :=
  let success := (criterion = "eq" ∧ result = value) ∨
                 (criterion = "gt" ∧ result > value) ∨
                 (criterion = "lt" ∧ result < value)
  let scaled := pyFind metric_str "brate" > 0
  let r := if scaled then result / 1000000 else result
  let v := if scaled then value / 1000000 else value
  let u := if scaled then " Mbit/s" else ""
  if success then Except.ok ⟨r, CRITERION_TO_SYM criterion, v, u⟩
  else Except.error (VerifyError.threshold
    ⟨r, CRYTERION_TO_SYM_OPPOSITE criterion, v, u⟩)

/-- Embedding of srsUEMetrics.verify (ms_srs.py lines 497..561).
raw maps a column name to the column of the parsed metrics CSV, ccCol is
its cc column.  After validating operation and criterion, the metric
columns are selected and summed; then, because of the Python truthiness
of metric_str.find(brate), the component carriers are folded whenever
"brate" does NOT occur at position 0 of metric_str (also when it does not
occur at all); then the aggregate is computed and compared. -/
def srsUEMetrics_verify (raw : String → Option (List ℚ)) (ccCol : List Nat)
    (value : ℚ) (operation metric_str criterion : String) (window : Nat) :
    Except VerifyError Msg :=
  if VALID_OPERATIONS.contains operation = false then
    Except.error (VerifyError.invalidOp operation)
  else if VALID_CRITERION.contains criterion = false then
    Except.error (VerifyError.invalidOp operation)
  else
    match selectData raw metric_str with
    | Except.error e => Except.error e
    | Except.ok sel0 =>
      match (if pyFind metric_str "brate" ≠ 0
             then deinterleave ccCol sel0 else Except.ok sel0) with
      | Except.error e => Except.error e
      | Except.ok sel =>
        match aggregate operation window sel with
        | Except.error e => Except.error e
        | Except.ok result => checkResult metric_str criterion result value

/-- Claim C5: with carrier count 2 and the flat dl_brate series
[10,20,30,40], the component-carrier folding sums every 2nd row starting
at offsets 0 and 1, giving the per-instant sums [30,70], whose average is
50; the full verify call on this data with operation avg succeeds at the
expected value 50 (the returned message carries the Mbit/s-scaled
numbers). -/
theorem C5_component_carrier_deinterleave :
    deinterleave [0, 1, 0, 1] [10, 20, 30, 40] = Except.ok [30, 70] ∧
    sliceStep [10, 20, 30, 40] 0 2 = [10, 30] ∧
    sliceStep [10, 20, 30, 40] 1 2 = [20, 40] ∧
    npAverage [30, 70] = Except.ok 50 ∧
    srsUEMetrics_verify
      (fun m => if m = "dl_brate" then some [10, 20, 30, 40] else none)
      [0, 1, 0, 1] 50 "avg" "dl_brate" "eq" 1 =
      Except.ok ⟨50 / 1000000, "==", 50 / 1000000, " Mbit/s"⟩ := by
  have hsplit : pySplit (Char.ofNat 43) "dl_brate" = ["dl_brate"] := by decide
  have hpf : pyFind "dl_brate" "brate" = 3 := by decide
  have hop : VALID_OPERATIONS.contains "avg" = true := by decide
  have hcr : VALID_CRITERION.contains "eq" = true := by decide
  have hop2 : "avg" ∈ VALID_OPERATIONS := by decide
  have hcr2 : "eq" ∈ VALID_CRITERION := by decide
  refine ⟨?_, ?_, ?_, ?_, ?_⟩
  · norm_num [deinterleave, ccFold, sliceStep, everyNth, npAdd, List.range']
  · norm_num [sliceStep, everyNth]
  · norm_num [sliceStep, everyNth]
  · norm_num [npAverage]
  · norm_num [srsUEMetrics_verify, hop, hcr, hop2, hcr2, selectData, hsplit,
      selectDataLoop, hpf, deinterleave, ccFold, sliceStep, everyNth, npAdd,
      npAverage, aggregate, checkResult, CRITERION_TO_SYM, List.range']

/-- Claim C6: min_rolling_avg over [0,0,0,5,5,5] with window 3 first trims
the leading zeros ([5,5,5] remains), then computes the rolling averages
([5]) and takes the minimum, 5; without the trimming the window of the
three leading zeros would contribute the value 0, and indeed the rolling
averages of the untrimmed series are [0, 5/3, 10/3, 5], none of whose
zero entries reaches the result. -/
theorem C6_min_rolling_avg_trims_leading_zeros :
    aggregate "min_rolling_avg" 3 [0, 0, 0, 5, 5, 5] = Except.ok 5 ∧
    List.dropWhile (fun x : ℚ => decide (x = 0)) [0, 0, 0, 5, 5, 5] =
      [5, 5, 5] ∧
    convolveValidAvg [5, 5, 5] 3 = Except.ok [5] ∧
    convolveValidAvg [0, 0, 0, 5, 5, 5] 3 =
      Except.ok [0, 5 / 3, 10 / 3, 5] ∧
    (5 : ℚ) ≠ 0 := by
  have h1 : (("min_rolling_avg" : String) = "avg") = False := by decide
  have h2 : (("min_rolling_avg" : String) = "sum") = False := by decide
  have h3 : (("min_rolling_avg" : String) = "max_rolling_avg") = False := by
    decide
  refine ⟨?_, ?_, ?_, ?_, ?_⟩
  · norm_num [aggregate, h1, h2, h3, convolveValidAvg, npAmin,
      List.range_succ, List.dropWhile]
  · norm_num [List.dropWhile]
  · norm_num [convolveValidAvg, List.range_succ]
  · norm_num [convolveValidAvg, List.range_succ]
  · norm_num

lemma pyFind_snr_brate : pyFind "snr" "brate" = -1 := by decide

/-- Claim C7: for each criterion eq/gt/lt the comparison tail of verify
succeeds exactly when the comparison holds, and on failure raises
log.Error whose message carries the opposite comparison symbol together
with the computed result and the expected value; concretely, verify with
value 50, operation avg and criterion gt succeeds over data of average 60
and fails over data of average 40 with the symbol "<=" and both numbers
in the message. -/
theorem C7_threshold_comparison (result value : ℚ) :
    (checkResult "snr" "eq" result value =
      if result = value then Except.ok ⟨result, "==", value, ""⟩
      else Except.error (VerifyError.threshold ⟨result, "!=", value, ""⟩)) ∧
    (checkResult "snr" "gt" result value =
      if value < result then Except.ok ⟨result, ">", value, ""⟩
      else Except.error (VerifyError.threshold ⟨result, "<=", value, ""⟩)) ∧
    (checkResult "snr" "lt" result value =
      if result < value then Except.ok ⟨result, "<", value, ""⟩
      else Except.error (VerifyError.threshold ⟨result, ">=", value, ""⟩)) ∧
    srsUEMetrics_verify (fun m => if m = "snr" then some [60, 60] else none)
      [0, 0] 50 "avg" "snr" "gt" 1 = Except.ok ⟨60, ">", 50, ""⟩ ∧
    srsUEMetrics_verify (fun m => if m = "snr" then some [40, 40] else none)
      [0, 0] 50 "avg" "snr" "gt" 1 =
      Except.error (VerifyError.threshold ⟨40, "<=", 50, ""⟩) := by
  have hsplit : pySplit (Char.ofNat 43) "snr" = ["snr"] := by decide
  have hop : VALID_OPERATIONS.contains "avg" = true := by decide
  have hcr : VALID_CRITERION.contains "gt" = true := by decide
  have hop2 : "avg" ∈ VALID_OPERATIONS := by decide
  have hcr2 : "gt" ∈ VALID_CRITERION := by decide
  have hgteq : (("gt" : String) = "eq") = False := by decide
  have hgtlt : (("gt" : String) = "lt") = False := by decide
  refine ⟨?_, ?_, ?_, ?_, ?_⟩
  · by_cases h : result = value <;>
      simp [checkResult, h, pyFind_snr_brate, CRITERION_TO_SYM,
        CRYTERION_TO_SYM_OPPOSITE]
  · by_cases h : value < result <;>
      simp [checkResult, h, pyFind_snr_brate, CRITERION_TO_SYM,
        CRYTERION_TO_SYM_OPPOSITE]
  · by_cases h : result < value <;>
      simp [checkResult, h, pyFind_snr_brate, CRITERION_TO_SYM,
        CRYTERION_TO_SYM_OPPOSITE]
  · norm_num [srsUEMetrics_verify, hop, hcr, hop2, hcr2, hgteq, selectData,
      hsplit, selectDataLoop, pyFind_snr_brate, deinterleave, ccFold, sliceStep,
      everyNth, npAdd, npAverage, aggregate, checkResult, CRITERION_TO_SYM,
      List.range']
  · norm_num [srsUEMetrics_verify, hop, hcr, hop2, hcr2, hgteq, hgtlt,
      selectData, hsplit, selectDataLoop, pyFind_snr_brate, deinterleave,
      ccFold, sliceStep, everyNth, npAdd, npAverage, aggregate, checkResult,
      CRYTERION_TO_SYM_OPPOSITE, List.range']

/-- Claim C8 as stated is false: for the metric name brate_dl, which
contains (indeed begins with) "brate", the message of verify is NOT
normalized to Mbit/s: the comparison on data of average 2 against 1
returns the unscaled numbers 2 and 1 with an empty unit, because the code
tests metric_str.find(brate) > 0 and the position here is 0. -/
theorem C8_counterexample_leading_brate_not_scaled :
    srsUEMetrics_verify
      (fun m => if m = "brate_dl" then some [2] else none)
      [0] 1 "avg" "brate_dl" "gt" 1 = Except.ok ⟨2, ">", 1, ""⟩ ∧
    (2 : ℚ) ≠ 2 / 1000000 ∧ "" ≠ " Mbit/s" := by
  have hsplit : pySplit (Char.ofNat 43) "brate_dl" = ["brate_dl"] := by decide
  have hpf : pyFind "brate_dl" "brate" = 0 := by decide
  have hop : VALID_OPERATIONS.contains "avg" = true := by decide
  have hcr : VALID_CRITERION.contains "gt" = true := by decide
  have hop2 : "avg" ∈ VALID_OPERATIONS := by decide
  have hcr2 : "gt" ∈ VALID_CRITERION := by decide
  have hgteq : (("gt" : String) = "eq") = False := by decide
  have hgtlt : (("gt" : String) = "lt") = False := by decide
  refine ⟨?_, ?_, by decide⟩
  · norm_num [srsUEMetrics_verify, hop, hcr, hop2, hcr2, hgteq, selectData,
      hsplit, selectDataLoop, hpf, npAverage, aggregate, checkResult,
      CRITERION_TO_SYM]
  · norm_num

/-- Claim C8 amended: the result and threshold values in the comparison
message are normalized to Mbit/s exactly when "brate" occurs in the
metric name at a strictly positive position; a name in which "brate"
occurs only at position 0 (or not at all) is left unscaled. -/
theorem C8_amended_scaling_iff_positive_find (m : String) (result value : ℚ)
    (hgt : value < result) :
    checkResult m "gt" result value =
      if pyFind m "brate" > 0
      then Except.ok ⟨result / 1000000, ">", value / 1000000, " Mbit/s"⟩
      else Except.ok ⟨result, ">", value, ""⟩ := by
  by_cases hs : pyFind m "brate" > 0 <;>
    simp [checkResult, hs, hgt, CRITERION_TO_SYM]

/-- Witness for C8 amended at the concrete metric name dl_brate
(occurrence at position 3) and values 2 against 1. -/
theorem C8_witness :
    checkResult "dl_brate" "gt" 2 1 =
      Except.ok ⟨2 / 1000000, ">", 1 / 1000000, " Mbit/s"⟩ := by
  have h := C8_amended_scaling_iff_positive_find "dl_brate" 2 1 (by norm_num)
  have hpf : pyFind "dl_brate" "brate" = 3 := by decide
  rw [h, hpf]
  norm_num

namespace MsSrs

/-- Embedding of num_prb2symbol_sz from ms_srs.py lines 68..75: three
exact-equality cases and a catch-all of 1536 (no failure case at all). -/
def num_prb2symbol_sz (num_prb : Nat) : Nat :=
  if num_prb = 6 then 128
  else if num_prb = 50 then 768
  else if num_prb = 75 then 1024
  else 1536

/-- num_prb2base_srate from ms_srs.py lines 77..78. -/
def num_prb2base_srate (num_prb : Nat) : Nat :=
  num_prb2symbol_sz num_prb * 15 * 1000

end MsSrs

namespace MsAmarisoft

/-- Embedding of num_prb2symbol_sz from ms_amarisoft.py lines 52..63:
breakpoints at 6, 15, 50, 75 and 110, log.Error above 110. -/
def num_prb2symbol_sz (num_prb : Nat) : Except String Nat :=
  if num_prb ≤ 6 then Except.ok 128
  else if num_prb ≤ 15 then Except.ok 256
  else if num_prb ≤ 50 then Except.ok 768
  else if num_prb ≤ 75 then Except.ok 1024
  else if num_prb ≤ 110 then Except.ok 1536
  else Except.error "invalid num_prb"

end MsAmarisoft

/-- The documented law of claim C4, written from the words of the spec
(for the refinement comparison): input ≤ 6 → 128, ≤ 15 → 256, ≤ 50 → 768,
≤ 75 → 1024, ≤ 110 → 1536, above 110 a configuration error (none). -/
def spec_num_prb2symbol_sz (num_prb : Nat) : Option Nat :=
  if num_prb ≤ 6 then some 128
  else if num_prb ≤ 15 then some 256
  else if num_prb ≤ 50 then some 768
  else if num_prb ≤ 75 then some 1024
  else if num_prb ≤ 110 then some 1536
  else none

/-- Claim C4 as stated is false for the ms_srs.py num_prb2symbol_sz:
at input 15 it returns 1536, not the documented 256, and at input 111
(above 110) it returns 1536 instead of failing; also the documented
breakpoint at 6 is an exact equality there, so input 5 gives 1536, not
128. -/
theorem C4_counterexample_ms_srs_lookup :
    MsSrs.num_prb2symbol_sz 15 = 1536 ∧ (1536 : Nat) ≠ 256 ∧
    MsSrs.num_prb2symbol_sz 111 = 1536 ∧
    MsSrs.num_prb2symbol_sz 5 = 1536 ∧
    spec_num_prb2symbol_sz 15 = some 256 := by
  refine ⟨rfl, by decide, rfl, rfl, rfl⟩

/-- Claim C4 amended: the ms_amarisoft.py num_prb2symbol_sz follows the
documented law exactly (including the failure above 110); the ms_srs.py
num_prb2symbol_sz agrees with the documented law exactly at the inputs
6, 50, 75 and 76..110, and on every other input (including 15 and every
input above 110) it returns 1536 and never fails. -/
theorem C4_amended_lookup_law (n : Nat) :
    (MsAmarisoft.num_prb2symbol_sz n).toOption = spec_num_prb2symbol_sz n ∧
    (some (MsSrs.num_prb2symbol_sz n) = spec_num_prb2symbol_sz n ↔
      n = 6 ∨ n = 50 ∨ n = 75 ∨ (76 ≤ n ∧ n ≤ 110)) ∧
    (n ≠ 6 → n ≠ 50 → n ≠ 75 → MsSrs.num_prb2symbol_sz n = 1536) := by
  refine ⟨?_, ?_, ?_⟩
  · unfold MsAmarisoft.num_prb2symbol_sz spec_num_prb2symbol_sz
    split_ifs <;> rfl
  · unfold MsSrs.num_prb2symbol_sz spec_num_prb2symbol_sz
    split_ifs <;> simp <;> omega
  · intro h6 h50 h75
    unfold MsSrs.num_prb2symbol_sz
    simp [h6, h50, h75]

/-- Witness for C4 amended at concrete inputs (the third conjunct has
hypotheses): input 15 is none of 6, 50, 75, so ms_srs gives 1536. -/
theorem C4_witness :
    (MsAmarisoft.num_prb2symbol_sz 15).toOption = spec_num_prb2symbol_sz 15 ∧
    MsSrs.num_prb2symbol_sz 15 = 1536 :=
  ⟨(C4_amended_lookup_law 15).1,
   (C4_amended_lookup_law 15).2.2 (by decide) (by decide) (by decide)⟩

/-- A subscriber record of srsEPC (srs_epc.py line 195): the fields given
to the appended dictionary. -/
structure Subscriber where
  id : Nat
  imsi : String
  msisdn : String
  auth_algo : String
  ki : Option String
  opc : Option String
deriving DecidableEq, Repr

/-- util.OSMO_AUTH_ALGO_NONE (core/util.py is not under src/; the claims
do not depend on the concrete value). -/
def OSMO_AUTH_ALGO_NONE : String := "none"

/-- Embedding of srsEPC.subscriber_add (srs_epc.py lines 186..202), after
the msisdn and algo_str defaulting (the resolved values are parameters).
A non-none algorithm without key material (None or the empty string, both
falsy) raises log.Error; otherwise one record with id = current list
length is appended and that id is returned. -/
def subscriber_add (subscriber_list : List Subscriber)
    (imsi msisdn algo_str : String) (ki : Option String) :
    Except String (List Subscriber × Nat) :=
  if algo_str ≠ OSMO_AUTH_ALGO_NONE ∧ (ki = none ∨ ki = some "") then
    Except.error "Auth algo selected but no KI specified"
  else
    Except.ok
      (subscriber_list ++
        [⟨subscriber_list.length, imsi, msisdn, algo_str, ki, none⟩],
       subscriber_list.length)

/-- Claim C9: a successful subscriber_add on a list of length i appends
exactly one record, that record carries id = i (its index in the new
list), the call returns i, every previously added record is unchanged
(the first i entries of the new list are the old list), and the
id-equals-index property is preserved by every such call. -/
theorem C9_subscriber_add_append_only (subscriber_list : List Subscriber)
    (imsi msisdn algo_str : String) (ki : Option String)
    (h : ¬(algo_str ≠ OSMO_AUTH_ALGO_NONE ∧ (ki = none ∨ ki = some ""))) :
    subscriber_add subscriber_list imsi msisdn algo_str ki =
      Except.ok
        (subscriber_list ++
          [Subscriber.mk subscriber_list.length imsi msisdn algo_str ki none],
         subscriber_list.length) ∧
    (subscriber_list ++
        [Subscriber.mk subscriber_list.length imsi msisdn algo_str ki
          none]).take subscriber_list.length = subscriber_list ∧
    (subscriber_list ++
        [Subscriber.mk subscriber_list.length imsi msisdn algo_str ki
          none]).length = subscriber_list.length + 1 ∧
    ((∀ (j : Nat) (hj : j < subscriber_list.length),
        (subscriber_list.get ⟨j, hj⟩).id = j) →
      ∀ (j : Nat) (hj : j < (subscriber_list ++
          [Subscriber.mk subscriber_list.length imsi msisdn algo_str ki
            none]).length),
        ((subscriber_list ++
          [Subscriber.mk subscriber_list.length imsi msisdn algo_str ki
            none]).get ⟨j, hj⟩).id = j) := by
  refine ⟨by unfold subscriber_add; rw [if_neg h], List.take_left _ _,
    by simp, ?_⟩
  intro hinv j hj
  rcases Nat.lt_or_ge j subscriber_list.length with hlt | hge
  · have : (subscriber_list ++
        [Subscriber.mk subscriber_list.length imsi msisdn algo_str ki
          none]).get ⟨j, hj⟩ = subscriber_list.get ⟨j, hlt⟩ := by
      simp [List.getElem_append_left, hlt]
    rw [this]
    exact hinv j hlt
  · have hj2 : j = subscriber_list.length := by
      simp at hj
      omega
    subst hj2
    simp

/-- Witness for C9 at a concrete input: empty list, algorithm none. -/
theorem C9_witness :
    subscriber_add [] "901700000000001" "1000" "none" none =
      Except.ok ([⟨0, "901700000000001", "1000", "none", none, none⟩], 0) :=
  (C9_subscriber_add_append_only [] "901700000000001" "1000" "none" none
    (by decide)).1

/-- Embedding of srsUE.is_rrc_connected (ms_srs.py lines 409..413):
Python rfind of the two console markers over the accumulated stdout
(None replaced by the empty string), compared strictly. -/
def srsUE_is_rrc_connected (stdout : Option String) : Bool :=
  decide (pyRfind (stdout.getD "") "RRC Connected" >
          pyRfind (stdout.getD "") "RRC IDLE")

/-- Claim C10: is_rrc_connected is True exactly when the last occurrence
of "RRC Connected" lies strictly after the last occurrence of "RRC IDLE"
(absent markers count as position -1); it is False on empty or missing
stdout, False when both markers are absent (the tied -1 case), and the
strict order is visible on two concrete traces. -/
theorem C10_is_rrc_connected_last_marker (stdout : Option String)
    (s : String) (h1 : pyRfind s "RRC Connected" = -1)
    (h2 : pyRfind s "RRC IDLE" = -1) :
    (srsUE_is_rrc_connected stdout = true ↔
      pyRfind (stdout.getD "") "RRC Connected" >
        pyRfind (stdout.getD "") "RRC IDLE") ∧
    srsUE_is_rrc_connected none = false ∧
    srsUE_is_rrc_connected (some "") = false ∧
    srsUE_is_rrc_connected (some s) = false ∧
    srsUE_is_rrc_connected (some "RRC IDLE x RRC Connected") = true ∧
    srsUE_is_rrc_connected (some "RRC Connected x RRC IDLE") = false := by
  refine ⟨by simp [srsUE_is_rrc_connected], by decide, by decide, ?_,
    by decide, by decide⟩
  simp [srsUE_is_rrc_connected, h1, h2]

/-- Witness for C10 at a concrete marker-free stdout. -/
theorem C10_witness :
    srsUE_is_rrc_connected (some "nothing here") = false :=
  (C10_is_rrc_connected_last_marker none "nothing here"
    (by decide) (by decide)).2.2.2.1
